import Mathlib

/-! Ravel: init command construction, initrd records, broadcaster, agent recovery.

A shallow embedding of four source files of the repository:

* `initd/environment/command.go`  (`buildCommand`)
* `runtime/vm/initrd.go`          (`writeInitrd`, `getInitConfig`)
* `pkg/helper/broadcaster/broadcaster.go` (`Broadcaster`)
* `pkg/agent/agent.go`            (`New`)

Go slices are lists, a nil-able slice or pointer is an `Option`, and a call
ends as an `Outcome`: a normal return, a returned error, or a panic.
-/

namespace Ravel

/-! ## Outcomes of Go calls -/

/-- How a Go call ends: a normal return, a non-nil `error`, or a runtime panic. -/
inductive Outcome (α : Type) where
  | ok (a : α)
  | error (msg : String)
  | panic (msg : String)

/-! ## `initd/environment/command.go` -/

/-- The image part of the init configuration (`image_config` of `run.json`).
`WorkingDir` and `User` are `*string` in the source. -/
structure ImageConfig where
  User : Option String
  WorkingDir : Option String
  Cmd : List String
  Entrypoint : List String
  Env : List String
deriving DecidableEq, Repr

/-- Nameserver list of the init configuration. -/
structure EtcResolv where
  Nameservers : List String
deriving DecidableEq, Repr

/-- One address configuration of the guest. -/
structure IPConfig where
  IPNet : String
  Broadcast : String
  Gateway : String
deriving DecidableEq, Repr

/-- Network part of the init configuration. -/
structure NetworkConfig where
  IPConfigs : List IPConfig
  DefaultGateway : String
deriving DecidableEq, Repr

/-- The init configuration document.  The declaration of the Go type is not among
the sources; the fields are those that `getInitConfig` fills and `buildCommand`
reads.  `ImageConfig` is held by pointer (`getInitConfig` stores an address), the
two override slices are nil when absent. -/
structure Config where
  ImageConfig : Option ImageConfig
  UserOverride : Option String
  CmdOverride : Option (List String)
  EntrypointOverride : Option (List String)
  RootDevice : String
  EtcResolv : EtcResolv
  ExtraEnv : List String
  Network : NetworkConfig
deriving DecidableEq, Repr

/-- The three standard streams of the init process. -/
inductive StdStream where
  | Stdin
  | Stdout
  | Stderr
deriving DecidableEq, Repr

/-- The fields of `exec.Cmd` that `buildCommand` sets. -/
structure Cmd where
  Path : String
  Args : List String
  Env : List String
  Stdin : StdStream
  Stdout : StdStream
  Stderr : StdStream
deriving DecidableEq, Repr

/-- The operating-system calls `buildCommand` makes.  `populateProcessEnv` and
`Chdir` return `none` for a nil error.  `LookPath` sees the process environment and
the working directory set by the two calls before it, so it takes them as
arguments. -/
structure Sys where
  populateProcessEnv : List String → Option String
  Chdir : String → Option String
  LookPath : List String → String → String → Except String String

/-- Embedding of `buildCommand`.  Dereferencing a nil `ImageConfig` and indexing
`args[0]` of an empty slice are the two places where the Go code panics. -/
def buildCommand (sys : Sys) (cfg : Config) : Outcome Cmd :=
  match cfg.ImageConfig with
  | none => .panic "runtime error: invalid memory address or nil pointer dereference"
  | some ic =>
    let entrypoint :=
      match cfg.EntrypointOverride with
      | some e => e
      | none => ic.Entrypoint
    let cmd :=
      match cfg.CmdOverride with
      | some c => c
      | none => ic.Cmd
    let args := entrypoint ++ cmd
    let envars := ic.Env ++ cfg.ExtraEnv
    match sys.populateProcessEnv envars with
    | some err => .error ("error populating process env: " ++ err)
    | none =>
      let workingDir :=
        match ic.WorkingDir with
        | some d => d
        | none => "/"
      match sys.Chdir workingDir with
      | some err => .error ("error changing working directory: " ++ err)
      | none =>
        match args with
        | [] => .panic "runtime error: index out of range [0] with length 0"
        | arg0 :: _ =>
          match sys.LookPath envars workingDir arg0 with
          | .error err => .error ("error searching for executable: " ++ err)
          | .ok lp =>
            .ok
              { Path := lp, Args := args, Env := envars,
                Stdin := .Stdin, Stdout := .Stdout, Stderr := .Stderr }

/-- The key of an environment entry `KEY=value`: the characters before the first
`=`. -/
def envKey (entry : String) : List Char :=
  entry.toList.takeWhile (fun ch => ch != '=')

/-- The last entry of `env` whose key is `k`, if there is one. -/
def lastWithKey (k : List Char) (env : List String) : Option String :=
  (env.reverse.find? (fun e => envKey e == k))

/-- A system in which every call succeeds and every executable is found at the
name it is looked up by. -/
def okSys : Sys where
  populateProcessEnv := fun _ => none
  Chdir := fun _ => none
  LookPath := fun _ _ file => .ok file

/-- Scenario E of the specification: image entrypoint `/bin/a`, cmd `x`, an
entrypoint override `/bin/b`, no cmd override, and overlapping environments. -/
def scenarioE : Config where
  ImageConfig := some
    { User := none, WorkingDir := none, Cmd := ["x"], Entrypoint := ["/bin/a"],
      Env := ["A=1", "B=2"] }
  UserOverride := none
  CmdOverride := none
  EntrypointOverride := some ["/bin/b"]
  RootDevice := "/dev/vda"
  EtcResolv := { Nameservers := ["8.8.8.8"] }
  ExtraEnv := ["B=3", "C=4"]
  Network := { IPConfigs := [], DefaultGateway := "" }

/-- An init configuration with no entrypoint and no command at all. -/
def emptyArgv : Config where
  ImageConfig := some
    { User := none, WorkingDir := none, Cmd := [], Entrypoint := [], Env := [] }
  UserOverride := none
  CmdOverride := none
  EntrypointOverride := none
  RootDevice := "/dev/vda"
  EtcResolv := { Nameservers := ["8.8.8.8"] }
  ExtraEnv := []
  Network := { IPConfigs := [], DefaultGateway := "" }

/-! ## `runtime/vm/initrd.go` -/

/-- File contents: a sequence of bytes. -/
abbrev Bytes := List Nat

/-- A cpio record as `writeInitrd` builds it: the `Info` fields it sets and the
bytes behind its `ReaderAt`. -/
structure Record where
  Name : String
  Mode : Nat
  FileSize : Nat
  Content : Bytes
deriving DecidableEq, Repr

/-- File-type bits of a mode: regular file (`unix.S_IFREG`). -/
def S_IFREG : Nat := 0o100000

/-- File-type bits of a mode: directory (`unix.S_IFDIR`). -/
def S_IFDIR : Nat := 0o040000

/-- Mask of the file-type bits (`unix.S_IFMT`). -/
def S_IFMT : Nat := 0o170000

/-- Library constructor `cpio.StaticFile(name, content, perm)` of the u-root cpio
package (not part of the repository): a regular-file record holding `content`. -/
def StaticFile (name : String) (content : Bytes) (perm : Nat) : Record where
  Name := name
  Mode := S_IFREG ||| perm
  FileSize := content.length
  Content := content

/-- Library constructor `cpio.Directory(name, mode)` of the u-root cpio package: a
directory record without content. -/
def Directory (name : String) (mode : Nat) : Record where
  Name := name
  Mode := S_IFDIR ||| mode
  FileSize := 0
  Content := []

/-- The `Init` part of an instance configuration: the three optional overrides. -/
structure InitOptions where
  User : Option String
  Cmd : Option (List String)
  Entrypoint : Option (List String)
deriving DecidableEq, Repr

/-- The instance configuration fields read by `getInitConfig`. -/
structure InstanceConfig where
  Init : InitOptions
  Env : List String
deriving DecidableEq, Repr

/-- The local network of an instance, each address already rendered by its
`String()` method (`InstanceIPNet().String()`, `Broadcast.String()`,
`Gateway.String()`). -/
structure LocalNetwork where
  InstanceIPNet : String
  Broadcast : String
  Gateway : String
deriving DecidableEq, Repr

/-- The fields of `instance.Instance` read by `writeInitrd` and `getInitConfig`. -/
structure Instance where
  Id : String
  Config : InstanceConfig
  Local : LocalNetwork
deriving DecidableEq, Repr

/-- The OCI image configuration (`v1.ImageConfig`): plain strings and slices. -/
structure OCIImageConfig where
  User : String
  WorkingDir : String
  Cmd : List String
  Entrypoint : List String
  Env : List String
deriving DecidableEq, Repr

/-- The OCI image (`v1.Image`), of which only `Config` is read. -/
structure Image where
  Config : OCIImageConfig
deriving DecidableEq, Repr

/-- The builder: its in-memory init binary. -/
structure Builder where
  initBin : Bytes
deriving DecidableEq, Repr

/-- Embedding of `getInitConfig`.  `cloudhypervisor.StringPtr` takes the address
of its argument, so `User` and `WorkingDir` are always present. -/
def getInitConfig (inst : Instance) (image : OCIImageConfig) : Config :=
  let config := inst.Config
  { ImageConfig := some
      { User := some image.User
        WorkingDir := some image.WorkingDir
        Cmd := image.Cmd
        Entrypoint := image.Entrypoint
        Env := image.Env }
    UserOverride := config.Init.User
    CmdOverride := config.Init.Cmd
    EntrypointOverride := config.Init.Entrypoint
    RootDevice := "/dev/vda"
    EtcResolv := { Nameservers := ["8.8.8.8"] }
    ExtraEnv := config.Env
    Network :=
      { IPConfigs :=
          [{ IPNet := inst.Local.InstanceIPNet
             Broadcast := inst.Local.Broadcast
             Gateway := inst.Local.Gateway }]
        DefaultGateway := inst.Local.Gateway } }

/-- Splits a path at every `/`. -/
def splitSlash : List Char → List (List Char)
  | [] => [[]]
  | ch :: rest =>
    match splitSlash rest with
    | [] => [[ch]]
    | first :: more => if ch = '/' then [] :: first :: more else (ch :: first) :: more

/-- The components of a path that remain when it is made relative to the root and
cleaned: empty components (a leading, doubled or trailing `/`) and `.` components
are dropped.  Paths with `..` components are outside this model. -/
def pathComponents (name : String) : List (List Char) :=
  (splitSlash name.toList).filter (fun comp => comp != [] && comp != ['.'])

/-- Joins path components with `/`; no components give `.` (as `filepath.Join`
and `filepath.Clean` do). -/
def joinPath (comps : List (List Char)) : String :=
  if comps = [] then "." else String.mk (List.intercalate ['/'] comps)

/-- Library function `cpio.Normalize` of the u-root cpio package: the name relative
to the root, cleaned; `/ravel/run.json` becomes `ravel/run.json`. -/
def Normalize (name : String) : String :=
  joinPath (pathComponents name)

/-- The directories on the way to a normalised name, outermost first:
`filepath.Dir` of the name, split at `/`, each prefix joined again.  For
`a/b/c/d` these are `a`, `a/b`, `a/b/c`; for a name without directory part the
directory is `.`. -/
def parentDirs (name : String) : List String :=
  let dirComps := (pathComponents name).dropLast
  if dirComps = [] then ["."] else (dirComps.inits.drop 1).map joinPath

/-- The records `cpio.WriteRecordsAndDirs` writes for `files`, given the
directories `seen` it has written so far: each record is written under its
normalised name, after a directory record of mode 0777 for every directory on the
way to it that has not been written yet. -/
def recordsAndDirs : List String → List Record → List Record
  | _, [] => []
  | seen, f :: rest =>
    let name := Normalize f.Name
    let dirs := (parentDirs name).filter (fun d => !seen.contains d)
    dirs.map (fun d => Directory d 0o777) ++ [{ f with Name := name }] ++
      recordsAndDirs (seen ++ dirs) rest

/-- The two library calls of `writeInitrd` that are left open: `json.Marshal` on
the init configuration, and the writes of the cpio writer to the gzip stream,
which fail with an error or succeed (`none`) for the records to be written. -/
structure InitrdLibs where
  Marshal : Config → Except String Bytes
  WriteError : List Record → Option String

/-- Model of the library function `cpio.WriteRecordsAndDirs` of the u-root cpio
package, whose code is outside the repository: it writes the records of
`recordsAndDirs`, starting with no directory written, and returns the first
write error. -/
def WriteRecordsAndDirs (libs : InitrdLibs) (files : List Record) :
    Except String (List Record) :=
  let out := recordsAndDirs [] files
  match libs.WriteError out with
  | some err => .error err
  | none => .ok out

/-- Embedding of `writeInitrd`: the sequence of cpio records written into the
gzip stream of `file`, or the returned error. -/
def writeInitrd (libs : InitrdLibs) (b : Builder) (inst : Instance) (image : Image) :
    Except String (List Record) :=
  let config := getInitConfig inst image.Config
  match libs.Marshal config with
  | .error err => .error ("failed to marshal init config: " ++ err)
  | .ok configJSON =>
    let configRecord := StaticFile "/ravel/run.json" configJSON 0o644
    let initRecord : Record :=
      { Content := b.initBin
        FileSize := b.initBin.length
        Name := "ravel-init"
        Mode := S_IFREG ||| 0o755 }
    match WriteRecordsAndDirs libs [initRecord, configRecord] with
    | .error err => .error ("failed to write records and dirs: " ++ err)
    | .ok written => .ok written

/-- Libraries in which every call succeeds, with `json` standing in for
`json.Marshal`. -/
def okLibs (json : Config → Bytes) : InitrdLibs where
  Marshal := fun cfg => .ok (json cfg)
  WriteError := fun _ => none

/-- A sample instance for the initrd builder. -/
def sampleInstance : Instance where
  Id := "inst-A"
  Config := { Init := { User := none, Cmd := none, Entrypoint := none }, Env := [] }
  Local := { InstanceIPNet := "10.0.0.2/30", Broadcast := "10.0.0.3", Gateway := "10.0.0.1" }

/-- A sample image for the initrd builder. -/
def sampleImage : Image where
  Config := { User := "", WorkingDir := "", Cmd := ["-c", "echo hi"],
              Entrypoint := ["/bin/sh"], Env := [] }

/-! ## `pkg/helper/broadcaster/broadcaster.go`

Channels live in a heap indexed by channel identity and follow the semantics of
the Go language: a buffered channel is a FIFO queue, a send proceeds when there is
room in the buffer and a receive when the buffer holds a value; a send on an
unbuffered channel (capacity 0) proceeds only when a receiver is ready, that is
parked in a receive on the channel, and hands the value to it.

Every call of `Start` launches one more loop goroutine; each is a small state
machine.  The bodies of `Subscribe` and `unsubscribe` hold the write lock and are
one step each.  A loop holds the read lock in the body of its publish and replay
cases, so the subscriber set does not change under it.  The fan-out of the
publish case makes one channel operation per subscriber channel, so for any one
channel it happens at one moment, and it is one step; the replay case makes
several sends on the same channel, between which the consumer may receive, so it
is one step for each send. -/

/-- How a step of the concurrent program ends: it completes, it cannot run now
(a blocking channel operation or lock, or a move that does not exist in that
state), or it panics. -/
inductive Run (α : Type) where
  | ok (a : α)
  | blocked
  | panic (msg : String)

/-- A Go channel `chan T`: capacity, buffered values (head first), closed flag,
and the number of receivers parked in a receive on it. -/
structure Chan (T : Type) where
  cap : Nat
  buf : List T
  closed : Bool
  recvq : Nat
deriving DecidableEq, Repr

/-- The message `Subscribe` hands to the loop: what to replay and to which
subscriber channel (`dest` is the Go field `to`). -/
structure replayMsg (T : Type) where
  msg : List T
  dest : Nat
deriving DecidableEq, Repr

/-- The options of `NewBroadcaster`.  `GetReplay` is a Go closure, nil when left
unset; a set closure reads state outside the broadcaster, so it is a function of
the moment at which it is called. -/
structure BroadcasterOpts (T : Type) where
  SubsBufferSize : Int
  GetReplay : Option (Nat → List T)

/-- The fields of `Broadcaster` (the mutex is implicit in the steps).  `subs`
holds the keys of the Go map, `stopCh` is true once closed, `replayCh` and
`publishCh` are the contents of two channels of capacity 1. -/
structure Broadcaster (T : Type) where
  subsBufferSize : Int
  getReplay : Option (Nat → List T)
  subs : List Nat
  stopCh : Bool
  replayCh : List (replayMsg T)
  publishCh : List T

/-- Where one loop goroutine stands: in its `select`; holding a message received
from `publishCh`, before the read lock; holding a replay received from
`replayCh`, before the read lock; inside the replay loop under the read lock,
with the messages still to send; or returned after the stop case. -/
inductive Loop (T : Type) where
  | selecting
  | gotPublish (msg : T)
  | gotReplay (replay : replayMsg T)
  | replaying (dest : Nat) (msgs : List T)
  | returned
deriving DecidableEq, Repr

/-- The state of the program around one broadcaster: the broadcaster, the heap of
subscriber channels with the next unused identity, and the loop goroutines in the
order in which `Start` launched them. -/
structure State (T : Type) where
  b : Broadcaster T
  chans : Nat → Chan T
  nextChan : Nat
  loops : List (Loop T)

/-- What an observer of the subscriber channels sees: a consumer receives a
message, a consumer receives the closed notification, a message for a subscriber
is dropped. -/
inductive Event (T : Type) where
  | recv (ch : Nat) (msg : T)
  | recvClosed (ch : Nat)
  | drop (ch : Nat) (msg : T)
deriving DecidableEq, Repr

/-- The ways the program around the broadcaster moves: the calls of its API, a
receive by the consumer of a subscriber channel, and the moves of loop number
`i`: one of the three `select` cases, then the body of the chosen case. -/
inductive Action (T : Type) where
  | start
  | stop
  | publish (msg : T)
  | subscribe (now : Nat)
  | unsubscribe (ch : Nat)
  | recv (ch : Nat)
  | loopRecvPublish (i : Nat)
  | loopRecvReplay (i : Nat)
  | loopRecvStop (i : Nat)
  | loopFanout (i : Nat)
  | loopReplayBegin (i : Nat)
  | loopReplaySend (i : Nat)
  | loopReplayEnd (i : Nat)
deriving DecidableEq, Repr

/-- Embedding of `NewBroadcaster`, with an empty heap and no loop launched. -/
def NewBroadcaster {T : Type} (opts : BroadcasterOpts T) : State T where
  b :=
    { subsBufferSize := opts.SubsBufferSize
      getReplay := opts.GetReplay
      subs := []
      stopCh := false
      publishCh := []
      replayCh := [] }
  chans := fun _ => { cap := 0, buf := [], closed := false, recvq := 0 }
  nextChan := 0
  loops := []

/-- How the statement `select { case ch <- msg: default: }` ends on an open
channel: the value is queued in the buffer, handed to a parked receiver, or the
`default` branch is taken. -/
inductive Sent where
  | queued
  | handed
  | dropped
deriving DecidableEq, Repr

/-- The statement `select { case ch <- msg: default: }` on one channel: the new
channel and how the statement ended. -/
def trySend {T : Type} (ch : Chan T) (msg : T) : Run (Chan T × Sent) :=
  if ch.closed then .panic "send on closed channel"
  else if ch.buf.length < ch.cap then .ok ({ ch with buf := ch.buf ++ [msg] }, .queued)
  else if ch.cap = 0 ∧ 0 < ch.recvq then .ok ({ ch with recvq := ch.recvq - 1 }, .handed)
  else .ok (ch, .dropped)

/-- What is observed of a send attempt on channel `c`: nothing when the value is
queued, its receipt by the parked consumer when it is handed over, a drop when
the `default` branch is taken. -/
def sendEvents {T : Type} (c : Nat) (msg : T) : Sent → List (Event T)
  | .queued => []
  | .handed => [Event.recv c msg]
  | .dropped => [Event.drop c msg]

/-- The loop `for ch := range b.subs` of the publish case of `Start`, over the
keys in the order `keys`.  Go ranges over a map in an unspecified order; by
`fanout_order_irrelevant` the channels after the loop do not depend on it. -/
def fanout {T : Type} (msg : T) :
    List Nat → (Nat → Chan T) → Run ((Nat → Chan T) × List (Event T))
  | [], chans => .ok (chans, [])
  | c :: rest, chans =>
    match trySend (chans c) msg with
    | .panic err => .panic err
    | .blocked => .blocked
    | .ok (ch, sent) =>
      match fanout msg rest (Function.update chans c ch) with
      | .panic err => .panic err
      | .blocked => .blocked
      | .ok (chans', evs) => .ok (chans', sendEvents c msg sent ++ evs)

/-- The loop of the stop case of `Start`: every subscriber channel is closed. -/
def closeAll {T : Type} : List Nat → (Nat → Chan T) → Run (Nat → Chan T)
  | [], chans => .ok chans
  | c :: rest, chans =>
    if (chans c).closed then .panic "close of closed channel"
    else closeAll rest (Function.update chans c { chans c with closed := true })

/-- Whether a loop is inside a section that holds the read lock across steps. -/
def Loop.readLocked {T : Type} : Loop T → Bool
  | .replaying _ _ => true
  | _ => false

/-- Whether some loop holds the read lock, so that the write lock cannot be
taken. -/
def readLocked {T : Type} (s : State T) : Bool :=
  s.loops.any Loop.readLocked

/-- Embedding of `unsubscribe`: the key is deleted under the write lock, then the
channel is closed. -/
def unsubscribe {T : Type} (s : State T) (ch : Nat) : Run (State T) :=
  if readLocked s then .blocked
  else
    let subs := s.b.subs.filter (fun c => c != ch)
    if (s.chans ch).closed then .panic "close of closed channel"
    else
      .ok { s with
        b := { s.b with subs := subs }
        chans := Function.update s.chans ch { s.chans ch with closed := true } }

/-- Embedding of `Subscribe`; the result carries the channel of the returned
handle.  The send on `replayCh` blocks while that channel is full. -/
def Subscribe {T : Type} (s : State T) (now : Nat) : Run (State T × Nat) :=
  if s.b.subsBufferSize < 0 then .panic "makechan: size out of range"
  else if readLocked s then .blocked
  else
    let ch := s.nextChan
    let chans := Function.update s.chans ch
      { cap := s.b.subsBufferSize.toNat, buf := [], closed := false, recvq := 0 }
    let subs := if ch ∈ s.b.subs then s.b.subs else s.b.subs ++ [ch]
    match s.b.getReplay with
    | none => .panic "runtime error: invalid memory address or nil pointer dereference"
    | some getReplay =>
      let toReplay := getReplay now
      if toReplay.length > 0 then
        if s.b.replayCh.length < 1 then
          .ok ({ s with
            b := { s.b with subs := subs, replayCh := s.b.replayCh ++ [{ msg := toReplay, dest := ch }] }
            chans := chans
            nextChan := ch + 1 }, ch)
        else .blocked
      else
        .ok ({ s with b := { s.b with subs := subs }, chans := chans, nextChan := ch + 1 }, ch)

/-- Embedding of `Publish`: nothing once `stopCh` is closed, else a blocking send
on `publishCh`. -/
def Publish {T : Type} (s : State T) (msg : T) : Run (State T) :=
  if s.b.stopCh then .ok s
  else if s.b.publishCh.length < 1 then
    .ok { s with b := { s.b with publishCh := s.b.publishCh ++ [msg] } }
  else .blocked

/-- Embedding of `Stop`: `close(b.stopCh)`. -/
def Stop {T : Type} (s : State T) : Run (State T) :=
  if s.b.stopCh then .panic "close of closed channel"
  else .ok { s with b := { s.b with stopCh := true } }

/-- Embedding of `Start`: one more loop goroutine is launched, whatever loops run
already. -/
def Start {T : Type} (s : State T) : Run (State T) :=
  .ok { s with loops := s.loops ++ [Loop.selecting] }

/-- A result without events. -/
def Run.quiet {T : Type} {E : Type} : Run T → Run (T × List E)
  | .ok a => .ok (a, [])
  | .blocked => .blocked
  | .panic err => .panic err

/-- A receive `<-sub.Ch()` by the consumer of a subscriber channel: the head of
the buffer, or the closed notification once the channel is closed and drained.
On an empty open channel the receive blocks; on an unbuffered channel the
consumer is then parked, ready for the hand-over of the next send. -/
def receive {T : Type} (s : State T) (ch : Nat) : Run (State T × List (Event T)) :=
  match (s.chans ch).buf with
  | v :: rest =>
    .ok ({ s with chans := Function.update s.chans ch { s.chans ch with buf := rest } },
      [Event.recv ch v])
  | [] =>
    if (s.chans ch).closed then .ok (s, [Event.recvClosed ch])
    else if (s.chans ch).cap = 0 then
      let parked : Chan T := { s.chans ch with recvq := (s.chans ch).recvq + 1 }
      .ok ({ s with chans := Function.update s.chans ch parked }, [])
    else .blocked

/-- The body of the publish case of loop `i`, lines 77 to 85: the fan-out of one
message under the read lock. -/
def loopFanout {T : Type} (s : State T) (i : Nat) (msg : T) :
    Run (State T × List (Event T)) :=
  match fanout msg s.b.subs s.chans with
  | .panic err => .panic err
  | .blocked => .blocked
  | .ok (chans, evs) => .ok ({ s with chans := chans, loops := s.loops.set i .selecting }, evs)

/-- The head of the replay case of loop `i`, lines 87 to 91: under the read lock,
a replay for a channel that is no longer subscribed is skipped. -/
def loopReplayBegin {T : Type} (s : State T) (i : Nat) (replay : replayMsg T) :
    Run (State T × List (Event T)) :=
  if replay.dest ∈ s.b.subs then
    .ok ({ s with loops := s.loops.set i (.replaying replay.dest replay.msg) }, [])
  else .ok ({ s with loops := s.loops.set i .selecting }, [])

/-- One turn of the replay loop of loop `i`, lines 92 to 98: the next message is
sent to the subscriber channel without blocking. -/
def loopReplaySend {T : Type} (s : State T) (i : Nat) (dest : Nat) (msg : T)
    (rest : List T) : Run (State T × List (Event T)) :=
  match trySend (s.chans dest) msg with
  | .panic err => .panic err
  | .blocked => .blocked
  | .ok (ch, sent) =>
    .ok ({ s with chans := Function.update s.chans dest ch,
                  loops := s.loops.set i (.replaying dest rest) }, sendEvents dest msg sent)

/-- The body of the stop case of loop `i`, lines 101 to 105. -/
def loopStop {T : Type} (s : State T) (i : Nat) : Run (State T × List (Event T)) :=
  match closeAll s.b.subs s.chans with
  | .panic err => .panic err
  | .blocked => .blocked
  | .ok chans =>
    .ok ({ s with b := { s.b with subs := [] }, chans := chans,
                  loops := s.loops.set i .returned }, [])

/-- One move of the program.  A handle exists only for a channel that `Subscribe`
has made, so `unsubscribe` and `recv` are moves only on such channels; a loop
moves only if `Start` has launched it. -/
def step {T : Type} (s : State T) : Action T → Run (State T × List (Event T))
  | .start => (Start s).quiet
  | .stop => (Stop s).quiet
  | .publish msg => (Publish s msg).quiet
  | .subscribe now =>
    match Subscribe s now with
    | .ok (s', _) => .ok (s', [])
    | .blocked => .blocked
    | .panic err => .panic err
  | .unsubscribe ch => if ch < s.nextChan then (unsubscribe s ch).quiet else .blocked
  | .recv ch => if ch < s.nextChan then receive s ch else .blocked
  | .loopRecvPublish i =>
    match s.loops[i]?, s.b.publishCh with
    | some .selecting, msg :: rest =>
      .ok ({ s with b := { s.b with publishCh := rest },
                    loops := s.loops.set i (.gotPublish msg) }, [])
    | _, _ => .blocked
  | .loopRecvReplay i =>
    match s.loops[i]?, s.b.replayCh with
    | some .selecting, replay :: rest =>
      .ok ({ s with b := { s.b with replayCh := rest },
                    loops := s.loops.set i (.gotReplay replay) }, [])
    | _, _ => .blocked
  | .loopRecvStop i =>
    match s.loops[i]? with
    | some .selecting => if s.b.stopCh then loopStop s i else .blocked
    | _ => .blocked
  | .loopFanout i =>
    match s.loops[i]? with
    | some (.gotPublish msg) => loopFanout s i msg
    | _ => .blocked
  | .loopReplayBegin i =>
    match s.loops[i]? with
    | some (.gotReplay replay) => loopReplayBegin s i replay
    | _ => .blocked
  | .loopReplaySend i =>
    match s.loops[i]? with
    | some (.replaying dest (msg :: rest)) => loopReplaySend s i dest msg rest
    | _ => .blocked
  | .loopReplayEnd i =>
    match s.loops[i]? with
    | some (.replaying _ []) => .ok ({ s with loops := s.loops.set i .selecting }, [])
    | _ => .blocked

/-- A sequence of moves from `s`: the state reached and the events observed, in
order. -/
def exec {T : Type} (s : State T) : List (Action T) → Run (State T × List (Event T))
  | [] => .ok (s, [])
  | a :: rest =>
    match step s a with
    | .panic err => .panic err
    | .blocked => .blocked
    | .ok (s', evs) =>
      match exec s' rest with
      | .panic err => .panic err
      | .blocked => .blocked
      | .ok (s'', evs') => .ok (s'', evs ++ evs')

/-- The events of a run, when it completes. -/
def Run.events {T : Type} {E : Type} : Run (T × List E) → Option (List E)
  | .ok (_, evs) => some evs
  | _ => none

/-- The panic message of a run, when it panics. -/
def Run.panicMsg {α : Type} : Run α → Option String
  | .panic err => some err
  | _ => none

/-- Whether a message for channel `ch` was dropped. -/
def dropped {T : Type} (ch : Nat) (evs : List (Event T)) : Bool :=
  evs.any (fun ev =>
    match ev with
    | .drop c _ => decide (c = ch)
    | _ => false)

/-- The message a loop holds between its `select` and the fan-out. -/
def Loop.held {T : Type} : Loop T → List T
  | .gotPublish msg => [msg]
  | _ => []

/-- The messages held by the loops between `select` and fan-out. -/
def inFlight {T : Type} (loops : List (Loop T)) : List T :=
  loops.flatMap Loop.held

/-- The fields of a stored instance that `New` reads and writes. -/
structure StoredInstance where
  Id : String
  MachineId : String
  LocalIPV4 : String
deriving DecidableEq, Repr

/-- A Go map with string keys: at most one entry for a key. -/
abbrev GoMap (V : Type) := List (String × V)

/-- The assignment `m[k] = v`. -/
def GoMap.set {V : Type} (m : GoMap V) (k : String) (v : V) : GoMap V :=
  (k, v) :: m.filter (fun entry => entry.1 != k)

/-- The keys of a map. -/
def GoMap.keys {V : Type} (m : GoMap V) : List String :=
  m.map Prod.fst

/-- The collaborators of `New`, whose code is outside the four source files.  The
first six are the outcomes of the start-up calls that come before the recovery
loop.  The two look-ups of the loop take the index of the iteration as well, so
that their answers may change while the loop runs.  The types of events,
reservations, instance states and managers are parameters. -/
structure Collaborators (Ev Res St Mgr : Type) where
  NewStore : Except String Unit
  NewRuntime : Except String Unit
  natsConnect : Except String Unit
  reservationsInit : Except String Unit
  clusterConnect : Except String Unit
  nodeStart : Except String Unit
  ListInstances : Except String (List StoredInstance)
  GetLastInstanceEvent : Nat → String → Except String Ev
  GetReservation : Nat → String → Except String Res
  MachineIP : Res → String
  NewInstanceState : StoredInstance → Ev → St
  NewInstanceManager : St → Res → Mgr
  Recover : Mgr → Mgr

/-- The agent: its node id and its map of managers (the other fields are handles
to the collaborators). -/
structure Agent (Mgr : Type) where
  nodeId : String
  instances : GoMap Mgr

/-- The recovery loop of `New`, lines 90 to 108, from iteration `n` on. -/
def recoverInstances {Ev Res St Mgr : Type} (d : Collaborators Ev Res St Mgr) :
    Nat → List StoredInstance → GoMap Mgr → Except String (GoMap Mgr)
  | _, [], managers => .ok managers
  | n, i :: rest, managers =>
    match d.GetLastInstanceEvent n i.Id with
    | .error err => .error ("failed to get last event for instance " ++ i.Id ++ ": " ++ err)
    | .ok lastEvent =>
      match d.GetReservation n i.MachineId with
      | .error _ => recoverInstances d (n + 1) rest managers
      | .ok reservation =>
        let i' := { i with LocalIPV4 := d.MachineIP reservation }
        let state := d.NewInstanceState i' lastEvent
        let manager := d.NewInstanceManager state reservation
        let manager := d.Recover manager
        recoverInstances d (n + 1) rest (managers.set i.Id manager)

/-- Embedding of `New`. -/
def New {Ev Res St Mgr : Type} (d : Collaborators Ev Res St Mgr) (nodeId : String) :
    Except String (Agent Mgr) :=
  match d.NewStore with
  | .error err => .error ("failed to initialize state: " ++ err)
  | .ok _ =>
  match d.NewRuntime with
  | .error err => .error ("failed to initialize container runtime: " ++ err)
  | .ok _ =>
  match d.natsConnect with
  | .error err => .error err
  | .ok _ =>
  match d.reservationsInit with
  | .error err => .error ("failed to initialize reservation service: " ++ err)
  | .ok _ =>
  match d.clusterConnect with
  | .error err => .error err
  | .ok _ =>
  match d.nodeStart with
  | .error err => .error ("failed to start node: " ++ err)
  | .ok _ =>
  match d.ListInstances with
  | .error err => .error ("failed to list instances: " ++ err)
  | .ok instances =>
  match recoverInstances d 0 instances [] with
  | .error err => .error err
  | .ok managers => .ok { nodeId := nodeId, instances := managers }

/-- A node whose store lists the given instances and in which every call
succeeds, except that only the machines in `reserved` have a reservation.  An
event is a string, a reservation is the machine id, a manager records the
instance it manages and whether `Recover` ran. -/
def sampleNode (listed : List StoredInstance) (reserved : List String) :
    Collaborators String String StoredInstance (StoredInstance × Bool) where
  NewStore := .ok ()
  NewRuntime := .ok ()
  natsConnect := .ok ()
  reservationsInit := .ok ()
  clusterConnect := .ok ()
  nodeStart := .ok ()
  ListInstances := .ok listed
  GetLastInstanceEvent := fun _ _ => .ok "running"
  GetReservation := fun _ machine =>
    if machine ∈ reserved then .ok machine else .error "reservation not found"
  MachineIP := fun _ => "10.0.0.2"
  NewInstanceState := fun i _ => i
  NewInstanceManager := fun st _ => (st, false)
  Recover := fun m => (m.1, true)

/-! ## Sample inputs and predicates used by the theorems -/

/-- The command `buildCommand` returns for scenario E on `okSys`. -/
def scenarioECmd : Cmd where
  Path := "/bin/b"
  Args := ["/bin/b", "x"]
  Env := ["A=1", "B=2", "B=3", "C=4"]
  Stdin := .Stdin
  Stdout := .Stdout
  Stderr := .Stderr

/-- A sample builder with a three-byte init binary. -/
def sampleBuilder : Builder where
  initBin := [127, 69, 76]

/-- A stand-in for the JSON serialisation: a fixed two-byte document. -/
def sampleJSON (_ : Config) : Bytes := [123, 125]

/-- The archive written for the sample instance. -/
def sampleArchive : List Record :=
  [Directory "." 0o777,
   { Name := "ravel-init", Mode := 0o100755, FileSize := 3, Content := [127, 69, 76] },
   Directory "ravel" 0o777,
   { Name := "ravel/run.json", Mode := 0o100644, FileSize := 2, Content := [123, 125] }]

/-- How the statement `select { case ch <- msg: default: }` ends on the open
channel `ch`. -/
def sendKind {T : Type} (ch : Chan T) : Sent :=
  if ch.buf.length < ch.cap then .queued
  else if ch.cap = 0 ∧ 0 < ch.recvq then .handed
  else .dropped

/-- The channel after the statement `select { case ch <- msg: default: }` on the
open channel `ch`. -/
def sendResult {T : Type} (ch : Chan T) (msg : T) : Chan T :=
  if ch.buf.length < ch.cap then { ch with buf := ch.buf ++ [msg] }
  else if ch.cap = 0 ∧ 0 < ch.recvq then { ch with recvq := ch.recvq - 1 }
  else ch

/-- Options with a replay provider that has nothing cached. -/
def emptyReplayOpts (size : Int) : BroadcasterOpts String where
  SubsBufferSize := size
  GetReplay := some (fun _ => [])

/-- Options with a replay provider that has one message cached. -/
def oneReplayOpts (size : Int) : BroadcasterOpts String where
  SubsBufferSize := size
  GetReplay := some (fun _ => ["replayed"])

/-- The value of a run that completed, else `fallback`. -/
def Run.getD {α : Type} (r : Run α) (fallback : α) : α :=
  match r with
  | .ok a => a
  | _ => fallback

/-- The state reached by a sequence of moves that completes (else the start). -/
def stateAfter {T : Type} (s : State T) (acts : List (Action T)) : State T :=
  ((exec s acts).getD (s, [])).1

/-- A broadcaster with buffer size 4, started once, with one subscriber,
channel 0. -/
def oneSubscriber : State String :=
  stateAfter (NewBroadcaster (emptyReplayOpts 4)) [.start, .subscribe 0]

/-- The state `oneSubscriber` after its subscriber has unsubscribed. -/
def unsubscribedOnce : State String :=
  stateAfter oneSubscriber [.unsubscribe 0]

theorem lastWithKey_append (k : List Char) (xs ys : List String) :
    lastWithKey k (xs ++ ys) = (lastWithKey k ys).or (lastWithKey k xs) := by
  simp [lastWithKey, List.reverse_append, List.find?_append]

theorem buildCommand_ok_inv (sys : Sys) (cfg : Config) (c : Cmd)
    (h : buildCommand sys cfg = .ok c) :
    ∃ ic, cfg.ImageConfig = some ic ∧
      c.Args = cfg.EntrypointOverride.getD ic.Entrypoint ++ cfg.CmdOverride.getD ic.Cmd ∧
      c.Env = ic.Env ++ cfg.ExtraEnv := by
  unfold buildCommand at h
  cases hic : cfg.ImageConfig with
  | none => simp [hic] at h
  | some ic =>
    refine ⟨ic, rfl, ?_⟩
    simp only [hic] at h
    split at h
    · simp at h
    · split at h
      · simp at h
      · split at h
        · simp at h
        · split at h
          · simp at h
          · rename_i hargs _ _ _
            injection h with h
            subst h
            constructor
            · cases heo : cfg.EntrypointOverride <;> cases hco : cfg.CmdOverride <;>
                simp [heo, hco] at hargs ⊢
            · rfl

/-- C1. Whenever `buildCommand` succeeds, the argv of the returned command is the
entrypoint override when present, else the image entrypoint, followed by the cmd
override when present, else the image cmd. -/
theorem buildCommand_args (sys : Sys) (cfg : Config) (c : Cmd)
    (h : buildCommand sys cfg = .ok c) :
    ∃ ic, cfg.ImageConfig = some ic ∧
      c.Args = cfg.EntrypointOverride.getD ic.Entrypoint ++ cfg.CmdOverride.getD ic.Cmd := by
  obtain ⟨ic, hic, hargs, _⟩ := buildCommand_ok_inv sys cfg c h
  exact ⟨ic, hic, hargs⟩

/-- C1 at scenario E: entrypoint `/bin/a`, cmd `x`, entrypoint override `/bin/b`
and no cmd override give the argv `/bin/b`, `x`. -/
theorem buildCommand_args_witness :
    buildCommand okSys scenarioE = .ok scenarioECmd ∧
    scenarioECmd.Args = ["/bin/b", "x"] ∧
    ∃ ic, scenarioE.ImageConfig = some ic ∧
      scenarioECmd.Args =
        scenarioE.EntrypointOverride.getD ic.Entrypoint ++ scenarioE.CmdOverride.getD ic.Cmd :=
  ⟨rfl, rfl, buildCommand_args okSys scenarioE scenarioECmd rfl⟩

/-- C2, as stated, fails: for scenario E the environment of the returned command
is `A=1`, `B=2`, `B=3`, `C=4`, in which the key `B` occurs twice. -/
theorem buildCommand_env_has_duplicate_keys :
    buildCommand okSys scenarioE = .ok scenarioECmd ∧
    scenarioECmd.Env = ["A=1", "B=2", "B=3", "C=4"] ∧
    ¬ (scenarioECmd.Env.map envKey).Nodup := by
  refine ⟨rfl, rfl, ?_⟩
  decide

/-- C2, amended. Whenever `buildCommand` succeeds, the environment of the returned
command is exactly `ImageConfig.Env` followed by `ExtraEnv`, duplicates kept; so
for every key the last entry with that key is the last one in `ExtraEnv` when
`ExtraEnv` has the key, and the last one in `ImageConfig.Env` otherwise. -/
theorem buildCommand_env (sys : Sys) (cfg : Config) (c : Cmd)
    (h : buildCommand sys cfg = .ok c) :
    ∃ ic, cfg.ImageConfig = some ic ∧
      c.Env = ic.Env ++ cfg.ExtraEnv ∧
      ∀ k, lastWithKey k c.Env = (lastWithKey k cfg.ExtraEnv).or (lastWithKey k ic.Env) := by
  obtain ⟨ic, hic, _, henv⟩ := buildCommand_ok_inv sys cfg c h
  refine ⟨ic, hic, henv, fun k => ?_⟩
  rw [henv, lastWithKey_append]

/-- C2 amended, at scenario E: the environment is the plain concatenation and the
last entry for `B` is `B=3`. -/
theorem buildCommand_env_witness :
    lastWithKey ['B'] scenarioECmd.Env = some "B=3" ∧
    ∃ ic, scenarioE.ImageConfig = some ic ∧
      scenarioECmd.Env = ic.Env ++ scenarioE.ExtraEnv ∧
      ∀ k, lastWithKey k scenarioECmd.Env =
        (lastWithKey k scenarioE.ExtraEnv).or (lastWithKey k ic.Env) :=
  ⟨by decide, buildCommand_env okSys scenarioE scenarioECmd rfl⟩

/-- C3 fails on the code. When the resolved argv is empty and the two calls before
the path lookup succeed, `buildCommand` does not return an error: it panics on
`args[0]`. -/
theorem buildCommand_empty_argv_panics (sys : Sys) (cfg : Config) (ic : ImageConfig)
    (hic : cfg.ImageConfig = some ic)
    (hargs : cfg.EntrypointOverride.getD ic.Entrypoint ++ cfg.CmdOverride.getD ic.Cmd = [])
    (henv : sys.populateProcessEnv (ic.Env ++ cfg.ExtraEnv) = none)
    (hdir : sys.Chdir (ic.WorkingDir.getD "/") = none) :
    buildCommand sys cfg = .panic "runtime error: index out of range [0] with length 0" := by
  unfold buildCommand
  simp only [hic, henv]
  have hwd : (match ic.WorkingDir with | some d => d | none => "/") = ic.WorkingDir.getD "/" := by
    cases ic.WorkingDir <;> rfl
  rw [hwd, hdir]
  have ha : ((match cfg.EntrypointOverride with | some e => e | none => ic.Entrypoint) ++
      (match cfg.CmdOverride with | some c => c | none => ic.Cmd)) = [] := by
    cases heo : cfg.EntrypointOverride <;> cases hco : cfg.CmdOverride <;>
      simpa [heo, hco] using hargs
  simp only [ha]

/-- C3 at the failing input: an image without entrypoint and cmd and no overrides,
on a system where every call succeeds. -/
theorem buildCommand_empty_argv_panics_witness :
    buildCommand okSys emptyArgv = .panic "runtime error: index out of range [0] with length 0" :=
  buildCommand_empty_argv_panics okSys emptyArgv
    { User := none, WorkingDir := none, Cmd := [], Entrypoint := [], Env := [] }
    rfl rfl rfl rfl

/-! ### `writeInitrd` -/

theorem recordsAndDirs_initrd (r1 r2 : Record) (h1 : r1.Name = "ravel-init")
    (h2 : r2.Name = "/ravel/run.json") :
    recordsAndDirs [] [r1, r2] =
      [Directory "." 0o777, { r1 with Name := "ravel-init" },
       Directory "ravel" 0o777, { r2 with Name := "ravel/run.json" }] := by
  have n1 : Normalize "ravel-init" = "ravel-init" := by decide
  have n2 : Normalize "/ravel/run.json" = "ravel/run.json" := by decide
  have d1 : (parentDirs "ravel-init").filter
      (fun d => !([] : List String).contains d) = ["."] := by decide
  have d2 : (parentDirs "ravel/run.json").filter
      (fun d => !(["."] : List String).contains d) = ["ravel"] := by decide
  simp only [recordsAndDirs, h1, h2, n1, n2, d1, d2, List.map_cons, List.map_nil,
    List.cons_append, List.nil_append, List.append_nil]

/-- C4, as stated, fails: the archive written for the sample instance holds four
records, not two; a directory record `.` stands before `ravel-init`, a directory
record `ravel` stands between the two files, and the configuration is written
under the name `ravel/run.json`. -/
theorem writeInitrd_writes_directory_records :
    (writeInitrd (okLibs sampleJSON) sampleBuilder sampleInstance sampleImage).toOption.map
        (fun written => written.map (fun r => (r.Name, r.Mode))) =
      some [(".", 0o040777), ("ravel-init", 0o100755), ("ravel", 0o040777),
        ("ravel/run.json", 0o100644)] := by
  decide

/-- C4, amended. Whenever `writeInitrd` succeeds, the archive it writes contains
exactly four records, in this order: a directory record `.` with mode 040777;
`ravel-init` with mode 0100755 whose content is the in-memory init binary; a
directory record `ravel` with mode 040777; and `ravel/run.json` (the name
`/ravel/run.json` relative to the root) with mode 0100644 whose content is the
JSON serialisation of `getInitConfig(instance, image.Config)`.  The two regular
files are the only records with content, and `ravel-init` comes first of them. -/
theorem writeInitrd_records (libs : InitrdLibs) (b : Builder) (inst : Instance)
    (image : Image) (written : List Record)
    (h : writeInitrd libs b inst image = .ok written) :
    ∃ json, libs.Marshal (getInitConfig inst image.Config) = .ok json ∧
      written =
        [{ Name := ".", Mode := 0o040777, FileSize := 0, Content := [] },
         { Name := "ravel-init", Mode := 0o100755, FileSize := b.initBin.length,
           Content := b.initBin },
         { Name := "ravel", Mode := 0o040777, FileSize := 0, Content := [] },
         { Name := "ravel/run.json", Mode := 0o100644, FileSize := json.length,
           Content := json }] := by
  unfold writeInitrd at h
  cases hm : libs.Marshal (getInitConfig inst image.Config) with
  | error err => simp [hm] at h
  | ok json =>
    refine ⟨json, rfl, ?_⟩
    simp only [hm, WriteRecordsAndDirs] at h
    rw [recordsAndDirs_initrd _ _ rfl rfl] at h
    have hmode1 : S_IFREG ||| 0o755 = 0o100755 := by decide
    have hmode2 : S_IFREG ||| 0o644 = 0o100644 := by decide
    have hmode3 : S_IFDIR ||| 0o777 = 0o040777 := by decide
    simp only [StaticFile, Directory, hmode1, hmode2, hmode3] at h
    split at h
    · simp at h
    · rename_i w hw
      injection h with h
      split at hw
      · simp at hw
      · injection hw with hw
        rw [← h, ← hw]

/-- C4 amended, at the sample instance: a three-byte init binary and a two-byte
configuration document. -/
theorem writeInitrd_records_witness :
    writeInitrd (okLibs sampleJSON) sampleBuilder sampleInstance sampleImage = .ok sampleArchive ∧
    ∃ json, (okLibs sampleJSON).Marshal (getInitConfig sampleInstance sampleImage.Config) =
        .ok json ∧
      sampleArchive =
        [{ Name := ".", Mode := 0o040777, FileSize := 0, Content := [] },
         { Name := "ravel-init", Mode := 0o100755, FileSize := sampleBuilder.initBin.length,
           Content := sampleBuilder.initBin },
         { Name := "ravel", Mode := 0o040777, FileSize := 0, Content := [] },
         { Name := "ravel/run.json", Mode := 0o100644, FileSize := json.length,
           Content := json }] :=
  ⟨rfl, writeInitrd_records (okLibs sampleJSON) sampleBuilder sampleInstance sampleImage
    sampleArchive rfl⟩

/-! ### Agent recovery -/

theorem GoMap.mem_keys_set {V : Type} (m : GoMap V) (k : String) (v : V) (k' : String) :
    k' ∈ (m.set k v).keys ↔ k' = k ∨ k' ∈ m.keys := by
  simp only [GoMap.set, GoMap.keys, List.map_cons, List.mem_cons, List.mem_map,
    List.mem_filter, Prod.exists]
  constructor
  · rintro (h | ⟨a, b, ⟨hm, _⟩, rfl⟩)
    · exact Or.inl h
    · exact Or.inr ⟨a, b, hm, rfl⟩
  · rintro (h | ⟨a, b, hm, rfl⟩)
    · exact Or.inl h
    · by_cases hk : a = k
      · exact Or.inl hk
      · exact Or.inr ⟨a, b, ⟨hm, by simpa using hk⟩, rfl⟩

theorem GoMap.mem_set {V : Type} (m : GoMap V) (k : String) (v : V) (k' : String) (v' : V)
    (h : (k', v') ∈ m.set k v) : (k' = k ∧ v' = v) ∨ (k', v') ∈ m := by
  simp only [GoMap.set, List.mem_cons, List.mem_filter, Prod.mk.injEq] at h
  rcases h with h | ⟨h, _⟩
  · exact Or.inl h
  · exact Or.inr h

theorem GoMap.nodup_keys_set {V : Type} (m : GoMap V) (k : String) (v : V)
    (h : m.keys.Nodup) : (m.set k v).keys.Nodup := by
  simp only [GoMap.set, GoMap.keys, List.map_cons, List.nodup_cons, List.mem_map,
    List.mem_filter, Prod.exists, not_exists, not_and]
  constructor
  · rintro a b ⟨_, hne⟩ rfl
    simp at hne
  · exact (List.filter_sublist m).map Prod.fst |>.nodup h

/-- What the recovery loop leaves in the map, from iteration `n` on. -/
theorem recoverInstances_spec {Ev Res St Mgr : Type} (d : Collaborators Ev Res St Mgr) :
    ∀ (l : List StoredInstance) (n : Nat) (ms ms' : GoMap Mgr),
      recoverInstances d n l ms = .ok ms' →
      (∀ k, k ∈ ms'.keys ↔ k ∈ ms.keys ∨
        ∃ j i r, l[j]? = some i ∧ i.Id = k ∧ d.GetReservation (n + j) i.MachineId = .ok r) ∧
      (∀ k m, (k, m) ∈ ms' → (k, m) ∈ ms ∨
        ∃ j i ev r, l[j]? = some i ∧ i.Id = k ∧
          d.GetLastInstanceEvent (n + j) i.Id = .ok ev ∧
          d.GetReservation (n + j) i.MachineId = .ok r ∧
          m = d.Recover (d.NewInstanceManager
            (d.NewInstanceState { i with LocalIPV4 := d.MachineIP r } ev) r)) ∧
      (ms.keys.Nodup → ms'.keys.Nodup) := by
  intro l
  induction l with
  | nil =>
    intro n ms ms' h
    simp only [recoverInstances] at h
    injection h with h
    subst h
    simp
  | cons i rest ih =>
    intro n ms ms' h
    simp only [recoverInstances] at h
    cases hev : d.GetLastInstanceEvent n i.Id with
    | error err => simp [hev] at h
    | ok ev =>
      simp only [hev] at h
      cases hres : d.GetReservation n i.MachineId with
      | error err =>
        simp only [hres] at h
        obtain ⟨hk, hm, hnd⟩ := ih (n + 1) ms ms' h
        refine ⟨fun k => ?_, fun k m hmem => ?_, hnd⟩
        · rw [hk k]
          constructor
          · rintro (h1 | ⟨j, i', r, hj, hid, hr⟩)
            · exact Or.inl h1
            · exact Or.inr ⟨j + 1, i', r, by simpa using hj, hid, by
                rw [← hr]; congr 1; omega⟩
          · rintro (h1 | ⟨j, i', r, hj, hid, hr⟩)
            · exact Or.inl h1
            · cases j with
              | zero =>
                simp only [List.getElem?_cons_zero, Option.some.injEq] at hj
                subst hj
                simp [hres] at hr
              | succ j =>
                exact Or.inr ⟨j, i', r, by simpa using hj, hid, by
                  rw [← hr]; congr 1; omega⟩
        · rcases hm k m hmem with h1 | ⟨j, i', ev', r, hj, hid, hev', hr, hmgr⟩
          · exact Or.inl h1
          · exact Or.inr ⟨j + 1, i', ev', r, by simpa using hj, hid,
              by rw [← hev']; congr 1; omega, by rw [← hr]; congr 1; omega, hmgr⟩
      | ok r =>
        simp only [hres] at h
        obtain ⟨hk, hm, hnd⟩ := ih (n + 1) _ ms' h
        refine ⟨fun k => ?_, fun k m hmem => ?_, fun hms => hnd (GoMap.nodup_keys_set ms _ _ hms)⟩
        · rw [hk k, GoMap.mem_keys_set]
          constructor
          · rintro ((h1 | h1) | ⟨j, i', r', hj, hid, hr⟩)
            · exact Or.inr ⟨0, i, r, by simp, h1.symm, by simpa using hres⟩
            · exact Or.inl h1
            · exact Or.inr ⟨j + 1, i', r', by simpa using hj, hid, by
                rw [← hr]; congr 1; omega⟩
          · rintro (h1 | ⟨j, i', r', hj, hid, hr⟩)
            · exact Or.inl (Or.inr h1)
            · cases j with
              | zero =>
                simp only [List.getElem?_cons_zero, Option.some.injEq] at hj
                subst hj
                exact Or.inl (Or.inl hid.symm)
              | succ j =>
                exact Or.inr ⟨j, i', r', by simpa using hj, hid, by
                  rw [← hr]; congr 1; omega⟩
        · rcases hm k m hmem with h1 | ⟨j, i', ev', r', hj, hid, hev', hr, hmgr⟩
          · rcases GoMap.mem_set ms _ _ _ _ h1 with ⟨h2, h3⟩ | h2
            · exact Or.inr ⟨0, i, ev, r, by simp, h2.symm, by simpa using hev,
                by simpa using hres, h3⟩
            · exact Or.inl h2
          · exact Or.inr ⟨j + 1, i', ev', r', by simpa using hj, hid,
              by rw [← hev']; congr 1; omega, by rw [← hr]; congr 1; omega, hmgr⟩

theorem New_ok_inv {Ev Res St Mgr : Type} (d : Collaborators Ev Res St Mgr) (nodeId : String)
    (agent : Agent Mgr) (h : New d nodeId = .ok agent) :
    ∃ listed, d.ListInstances = .ok listed ∧
      recoverInstances d 0 listed [] = .ok agent.instances := by
  unfold New at h
  repeat (split at h; · simp at h)
  rename_i listed hl _ ms hms
  refine ⟨listed, hl, ?_⟩
  injection h with h
  rw [← h, hms]

/-- C9, as stated, fails: a store that lists one instance whose reservation
look-up fails lets `New` succeed with an empty instance map. -/
theorem New_skips_instance_without_reservation :
    (New (sampleNode [{ Id := "inst-A", MachineId := "m-A", LocalIPV4 := "" }] []) "node-1").toOption.map
        (fun agent => agent.instances.keys) = some [] ∧
    (sampleNode [{ Id := "inst-A", MachineId := "m-A", LocalIPV4 := "" }] []).ListInstances.toOption.map
        (fun listed => listed.map (fun i => i.Id)) = some ["inst-A"] := by
  decide

/-- C9, amended. Whenever `New` succeeds, the keys of the agent's instance map
are exactly the ids of the listed instances whose reservation look-up succeeded
(an instance whose look-up fails is skipped), no key occurs twice, and every
manager in the map was built for a listed instance with that id from its last
event and its reservation and then had `Recover` called on it. -/
theorem New_instances (Ev Res St Mgr : Type) (d : Collaborators Ev Res St Mgr)
    (nodeId : String) (agent : Agent Mgr) (h : New d nodeId = .ok agent) :
    ∃ listed, d.ListInstances = .ok listed ∧
      (∀ k, k ∈ agent.instances.keys ↔
        ∃ n i r, listed[n]? = some i ∧ i.Id = k ∧ d.GetReservation n i.MachineId = .ok r) ∧
      agent.instances.keys.Nodup ∧
      (∀ k m, (k, m) ∈ agent.instances →
        ∃ n i ev r, listed[n]? = some i ∧ i.Id = k ∧
          d.GetLastInstanceEvent n i.Id = .ok ev ∧
          d.GetReservation n i.MachineId = .ok r ∧
          m = d.Recover (d.NewInstanceManager
            (d.NewInstanceState { i with LocalIPV4 := d.MachineIP r } ev) r)) := by
  obtain ⟨listed, hl, hrec⟩ := New_ok_inv d nodeId agent h
  obtain ⟨hk, hm, hnd⟩ := recoverInstances_spec d listed 0 [] agent.instances hrec
  refine ⟨listed, hl, fun k => ?_, hnd (by simp [GoMap.keys]), fun k m hmem => ?_⟩
  · rw [hk k]
    simp [GoMap.keys]
  · rcases hm k m hmem with h1 | h1
    · simp at h1
    · simpa using h1

/-- C9 amended, at a store listing two instances of which only the second has a
reservation: the map holds a recovered manager for the second only. -/
theorem New_instances_witness :
    ∃ agent, New (sampleNode [{ Id := "inst-A", MachineId := "m-A", LocalIPV4 := "" },
        { Id := "inst-B", MachineId := "m-B", LocalIPV4 := "" }] ["m-B"]) "node-1" = .ok agent ∧
      agent.instances =
        [("inst-B", ({ Id := "inst-B", MachineId := "m-B", LocalIPV4 := "10.0.0.2" }, true))] ∧
      ∃ listed, (sampleNode [{ Id := "inst-A", MachineId := "m-A", LocalIPV4 := "" },
          { Id := "inst-B", MachineId := "m-B", LocalIPV4 := "" }] ["m-B"]).ListInstances =
            .ok listed ∧
        (∀ k, k ∈ agent.instances.keys ↔
          ∃ n i r, listed[n]? = some i ∧ i.Id = k ∧
            (sampleNode [{ Id := "inst-A", MachineId := "m-A", LocalIPV4 := "" },
              { Id := "inst-B", MachineId := "m-B", LocalIPV4 := "" }] ["m-B"]).GetReservation n
                i.MachineId = .ok r) :=
  ⟨_, rfl, rfl,
    (New_instances _ _ _ _ (sampleNode [{ Id := "inst-A", MachineId := "m-A", LocalIPV4 := "" },
        { Id := "inst-B", MachineId := "m-B", LocalIPV4 := "" }] ["m-B"]) "node-1" _ rfl).imp
      (fun _ hx => ⟨hx.1, hx.2.1⟩)⟩

/-! ### Broadcaster: single calls -/

/-- C8 fails on the code. After an `Unsubscribe` that completed, a second
`Unsubscribe` of the same handle does not complete: closing the already closed
channel panics. -/
theorem unsubscribe_twice_panics (T : Type) (s s' : State T) (ch : Nat)
    (h : unsubscribe s ch = .ok s') :
    unsubscribe s' ch = .panic "close of closed channel" := by
  unfold unsubscribe at h
  split at h
  · simp at h
  · rename_i hlock
    split at h
    · simp at h
    · injection h with h
      subst h
      have hlock' : readLocked s = false := by simpa using hlock
      simp [unsubscribe, readLocked] at hlock' ⊢
      intro l hl
      simpa using hlock' l hl

/-- C8 at the failing input: subscribe once, then unsubscribe the handle twice. -/
theorem unsubscribe_twice_panics_witness :
    (exec (NewBroadcaster (emptyReplayOpts 4)) [.start, .subscribe 0]).events = some [] ∧
    unsubscribe oneSubscriber 0 = .ok unsubscribedOnce ∧
    unsubscribe unsubscribedOnce 0 = .panic "close of closed channel" :=
  ⟨rfl, rfl, unsubscribe_twice_panics String oneSubscriber unsubscribedOnce 0 rfl⟩

/-- C10 fails on the code. On a broadcaster built without a replay provider,
`Subscribe` does not complete: it panics, on the call of the nil `getReplay` when
the buffer size is valid. -/
theorem Subscribe_without_replay_panics (T : Type) (size : Int) (now : Nat) :
    Subscribe (NewBroadcaster ({ SubsBufferSize := size, GetReplay := none } :
        BroadcasterOpts T)) now =
      .panic (if size < 0 then "makechan: size out of range"
        else "runtime error: invalid memory address or nil pointer dereference") := by
  unfold Subscribe NewBroadcaster
  by_cases hs : size < 0 <;> simp [hs, readLocked]

/-- C7 fails on the code. A subscriber whose replay is queued, followed by a
`Publish`, can receive the live message before the replayed one: the loop is free
to take its publish case first. -/
theorem live_message_can_precede_replay :
    (exec (NewBroadcaster (oneReplayOpts 4))
      [.start, .subscribe 0, .publish "live", .loopRecvPublish 0, .loopFanout 0,
       .loopRecvReplay 0, .loopReplayBegin 0, .loopReplaySend 0, .loopReplayEnd 0,
       .recv 0, .recv 0]).events =
      some [.recv 0 "live", .recv 0 "replayed"] := by
  rfl

/-! ### Broadcaster: sends and the fan-out loop -/

theorem trySend_open {T : Type} (ch : Chan T) (msg : T) (h : ch.closed = false) :
    trySend ch msg = .ok (sendResult ch msg, sendKind ch) := by
  unfold trySend sendResult sendKind
  by_cases hroom : ch.buf.length < ch.cap
  · simp [h, hroom]
  · by_cases hpark : ch.cap = 0 ∧ 0 < ch.recvq
    · simp [h, hroom, hpark]
    · simp only [h, hroom, hpark, Bool.false_eq_true, ↓reduceIte]

/-- The fan-out over a duplicate-free list of open channels completes: each listed
channel gets one send attempt, observed in the order of the list, and no other
channel changes. -/
theorem fanout_spec {T : Type} (msg : T) :
    ∀ (keys : List Nat) (chans : Nat → Chan T), keys.Nodup →
      (∀ c ∈ keys, (chans c).closed = false) →
      ∃ chans', fanout msg keys chans =
          .ok (chans', keys.flatMap (fun k => sendEvents k msg (sendKind (chans k)))) ∧
        (∀ c, chans' c = if c ∈ keys then sendResult (chans c) msg else chans c) := by
  intro keys
  induction keys with
  | nil =>
    intro chans _ _
    exact ⟨chans, rfl, by simp⟩
  | cons k rest ih =>
    intro chans hnd hopen
    have hk : k ∉ rest := (List.nodup_cons.mp hnd).1
    have hrest : rest.Nodup := (List.nodup_cons.mp hnd).2
    have hopen' : ∀ c ∈ rest, (Function.update chans k (sendResult (chans k) msg) c).closed = false := by
      intro c hc
      have hne : c ≠ k := fun h => hk (h ▸ hc)
      rw [Function.update_noteq hne]
      exact hopen c (List.mem_cons_of_mem _ hc)
    obtain ⟨chans', hfan, hch⟩ := ih _ hrest hopen'
    have hevs : rest.flatMap (fun x => sendEvents x msg
        (sendKind (Function.update chans k (sendResult (chans k) msg) x))) =
        rest.flatMap (fun x => sendEvents x msg (sendKind (chans x))) := by
      apply List.flatMap_congr
      intro x hx
      have hne : x ≠ k := fun h => hk (h ▸ hx)
      rw [Function.update_noteq hne]
    refine ⟨chans', ?_, ?_⟩
    · simp only [fanout, trySend_open (chans k) msg (hopen k (List.mem_cons_self _ _)), hfan,
        hevs, List.flatMap_cons]
    · intro c
      rw [hch c]
      by_cases hck : c = k
      · subst hck
        simp [hk]
      · simp [hck, Function.update_noteq hck]

/-- The order in which the fan-out visits the subscribers does not change the
channels it leaves. -/
theorem fanout_order_irrelevant {T : Type} (msg : T) (keys keys' : List Nat)
    (chans : Nat → Chan T) (hperm : keys.Perm keys') (hnd : keys.Nodup)
    (hopen : ∀ c ∈ keys, (chans c).closed = false) :
    ∃ chans' evs evs', fanout msg keys chans = .ok (chans', evs) ∧
      fanout msg keys' chans = .ok (chans', evs') := by
  obtain ⟨chans1, h1, hch1⟩ := fanout_spec msg keys chans hnd hopen
  obtain ⟨chans2, h2, hch2⟩ := fanout_spec msg keys' chans
    (hperm.nodup_iff.mp hnd) (fun c hc => hopen c (hperm.mem_iff.mpr hc))
  have heq : chans2 = chans1 := by
    funext c
    rw [hch1 c, hch2 c]
    by_cases hc : c ∈ keys
    · rw [if_pos hc, if_pos (hperm.mem_iff.mp hc)]
    · rw [if_neg hc, if_neg (fun h => hc (hperm.mem_iff.mpr h))]
  exact ⟨chans1, _, _, h1, heq ▸ h2⟩

theorem dropped_of_mem {T : Type} (c : Nat) (msg : T) (evs : List (Event T))
    (h : Event.drop c msg ∈ evs) : dropped c evs = true := by
  unfold dropped
  rw [List.any_eq_true]
  exact ⟨_, h, by simp⟩

theorem inFlight_single {T : Type} (l : Loop T) : inFlight [l] = l.held := by
  simp [inFlight]

end Ravel
